import Mathlib

/-!
# Verification of the Bright Data snapshot client (`app/services/brightdata.py`)

This file gives a shallow embedding of the trigger → poll → fetch workflow
implemented in `app/services/brightdata.py`, of the field coercion performed by
the pydantic model `InstagramProfile` (`app/models/instagram.py`, pydantic v2
lax validation), and of the configuration gate in `fetch_instagram_profile`.

JSON values decoded from HTTP bodies are modelled by `Wykra.Json`; Python
truthiness, `dict.get`, `x or y`, and `str()` are modelled by `Json.truthy`,
`agetD`/`aget`, `pyOr`, and `pyStr`.  The network is modelled by an
environment that maps each attempt number to the `HttpResp` the provider
returns for it.  Time is modelled abstractly: each loop reports the number of
HTTP requests it made and the total units it slept.
-/

namespace Wykra

/-- A decoded JSON value as produced by `resp.json()` in the Python source.
Python `int` and `float` payloads are kept distinct; floats are modelled
exactly as rationals (all floats appearing in the verified inputs are exactly
representable). -/
inductive Json where
  | null : Json
  | bool (b : Bool) : Json
  | int (n : Int) : Json
  | float (q : Rat) : Json
  | str (s : String) : Json
  | arr (xs : List Json) : Json
  | obj (kvs : List (String × Json)) : Json

/-- Python truthiness of a decoded JSON value: `None`, `False`, `0`, `0.0`,
`""`, `[]` and `{}` are falsy, everything else truthy. -/
def Json.truthy : Json → Bool
  | .null => false
  | .bool b => b
  | .int n => decide (n ≠ 0)
  | .float q => decide (q ≠ 0)
  | .str s => decide (s ≠ "")
  | .arr xs => !xs.isEmpty
  | .obj kvs => !kvs.isEmpty

/-- `d.get(key, default)` on a Python dict, modelled on the association list of
a `Json.obj` (keys are unique in a Python dict; the first binding wins). -/
def agetD : List (String × Json) → String → Json → Json
  | [], _, d => d
  | (k, v) :: rest, key, d => if k = key then v else agetD rest key d

/-- `d.get(key)` on a Python dict: absent keys yield `None`. -/
def aget (kvs : List (String × Json)) (key : String) : Json :=
  agetD kvs key .null

/-- Python `a or b` on decoded JSON values: the first operand if truthy,
otherwise the second. -/
def pyOr (a b : Json) : Json :=
  if a.truthy then a else b

/-- Python equality test of a decoded JSON value against a string literal, as
in `status in ("ready", "completed", "done")`: only the equal string compares
equal. -/
def jsonEqStr (j : Json) (s : String) : Bool :=
  match j with
  | .str t => decide (t = s)
  | _ => false

mutual

/-- Python `repr()` of a decoded JSON value (string escaping inside nested
containers is not reproduced; no verified input depends on it). -/
def pyRepr : Json → String
  | .null => "None"
  | .bool true => "True"
  | .bool false => "False"
  | .int n => toString n
  | .float q => toString q
  | .str s => "'" ++ s ++ "'"
  | .arr xs => "[" ++ pyReprList xs ++ "]"
  | .obj kvs => "\x7b" ++ pyReprKVs kvs ++ "\x7d"

/-- Comma-separated `repr`s of the elements of a Python list. -/
def pyReprList : List Json → String
  | [] => ""
  | [x] => pyRepr x
  | x :: xs => pyRepr x ++ ", " ++ pyReprList xs

/-- Comma-separated `repr`s of the items of a Python dict. -/
def pyReprKVs : List (String × Json) → String
  | [] => ""
  | [(k, v)] => "'" ++ k ++ "': " ++ pyRepr v
  | (k, v) :: kvs => "'" ++ k ++ "': " ++ pyRepr v ++ ", " ++ pyReprKVs kvs

end

/-- Python `str()` of a decoded JSON value: the identity on strings, `repr`
otherwise. -/
def pyStr (j : Json) : String :=
  match j with
  | .str s => s
  | _ => pyRepr j

/-- ASCII lower-casing of one character, as Python `str.lower` acts on the
ASCII range (all verified inputs are ASCII). -/
def asciiLower (c : Char) : Char :=
  if 65 ≤ c.toNat ∧ c.toNat ≤ 90 then Char.ofNat (c.toNat + 32) else c

/-- Python `str.lower` on ASCII strings. -/
def pyToLower (s : String) : String :=
  ⟨s.data.map asciiLower⟩

/-- `pat` is an initial segment of `hay` (first argument is the pattern). -/
def startsWithChars : List Char → List Char → Bool
  | [], _ => true
  | _ :: _, [] => false
  | p :: ps, h :: hs => p = h && startsWithChars ps hs

/-- `pat` occurs contiguously somewhere in `hay`. -/
def hasSubChars (pat : List Char) : List Char → Bool
  | [] => startsWithChars pat []
  | h :: hs => startsWithChars pat (h :: hs) || hasSubChars pat hs

/-- Substring test, as Python `pat in hay`. -/
def strContains (hay pat : String) : Bool :=
  hasSubChars pat.data hay.data

/-- An HTTP response as seen by the client: status code and decoded JSON
body. -/
structure HttpResp where
  code : Nat
  body : Json

/-- `httpx.Response.raise_for_status` does not raise exactly on 2xx codes. -/
def isSuccessCode (c : Nat) : Bool :=
  decide (200 ≤ c ∧ c < 300)

/-- The error outcomes of `fetch_instagram_profile` and its helpers: the
`BrightDataError` variants raised in brightdata.py (distinguished here by the
raise site), the `AttributeError` Python would raise on `.get` of a non-dict,
and the pydantic `ValidationError` of the `InstagramProfile` constructor. -/
inductive BDErr where
  | notConfigured : BDErr
  | triggerHttpError : BDErr
  | missingJobId : BDErr
  | pyAttributeError : BDErr
  | progressHttpError : BDErr
  | jobFailed : BDErr
  | timeout (lastStatus : Json) : BDErr
  | fetchHttpError : BDErr
  | firstItemNotObject : BDErr
  | unexpectedPayload : BDErr
  | snapshotNotReady : BDErr
  | validationError : BDErr

/-- The snapshot-id extraction of `_trigger_snapshot` (brightdata.py lines
111–119) applied to the decoded trigger response body: `data.get("snapshot_id")`
followed by a truthiness check; a falsy or absent id raises
`BrightDataError` ("Unexpected trigger response (no snapshot_id)", modelled as
`missingJobId`).  Calling `.get` on a non-dict body (e.g. a list response)
raises `AttributeError` in Python. -/
def extractSnapshotId (data : Json) : Except BDErr Json :=
  match data with
  | .obj kvs =>
      let snapshotId := aget kvs "snapshot_id"
      if snapshotId.truthy then .ok snapshotId else .error .missingJobId
  | _ => .error .pyAttributeError

/-- `_trigger_snapshot` given the provider's trigger response: non-2xx raises
the trigger `BrightDataError`; otherwise the body is parsed and the snapshot
id extracted. -/
def triggerSnapshot (resp : HttpResp) : Except BDErr Json :=
  if isSuccessCode resp.code then extractSnapshotId resp.body
  else .error .triggerHttpError

/-- `(data or {}).get(key)` as used by `_wait_for_snapshot_ready`: a falsy
body is replaced by `{}` (so the lookup yields `None`); an object body is
looked up directly.  A truthy non-object body would raise `AttributeError` in
Python and is outside the modelled domain (progress bodies are objects). -/
def jget (body : Json) (key : String) : Json :=
  match body with
  | .obj kvs => aget kvs key
  | _ => .null

/-- `status in ("a", "b", ...)` on a decoded JSON value. -/
def statusIn (j : Json) (ss : List String) : Bool :=
  ss.any (jsonEqStr j)

/-- The status read on each poll (brightdata.py line 175):
`(data or {}).get("status") or (data or {}).get("state")`. -/
def statusOf (body : Json) : Json :=
  pyOr (jget body "status") (jget body "state")

/-- Outcome of `_wait_for_snapshot_ready`: normal return, the failed-status
`BrightDataError`, the timeout `BrightDataError` carrying `last_status`, or a
progress HTTP error. -/
inductive WaitOutcome where
  | ready : WaitOutcome
  | jobFailed : WaitOutcome
  | timeout (lastStatus : Json) : WaitOutcome
  | httpError : WaitOutcome

/-- The polling loop of `_wait_for_snapshot_ready` (brightdata.py lines
150–188).  `attempt` is the 1-based index of the next attempt, `fuel` the
number of attempts remaining out of `max_attempts`; `polls` maps each attempt
number to the provider's progress response.  Returns the outcome, the number
of HTTP requests made, and the total time slept (`asyncio.sleep(interval)`
runs before every attempt except the first). -/
def waitLoop (interval : Nat) (polls : Nat → HttpResp) :
    Nat → Nat → Json → WaitOutcome × Nat × Nat
  | _, 0, last => (.timeout last, 0, 0)
  | attempt, fuel + 1, _ =>
    let sleepNow := if 1 < attempt then interval else 0
    let resp := polls attempt
    if isSuccessCode resp.code then
      let status := statusOf resp.body
      if statusIn status ["ready", "completed", "done"] then
        (.ready, 1, sleepNow)
      else if statusIn status ["failed", "error"] then
        (.jobFailed, 1, sleepNow)
      else
        let rest := waitLoop interval polls (attempt + 1) fuel status
        (rest.1, rest.2.1 + 1, rest.2.2 + sleepNow)
    else
      (.httpError, 1, sleepNow)

/-- `_wait_for_snapshot_ready`: `max_attempts = max_wait // interval` attempts
starting from attempt 1 with `last_status = None`.  (`interval` is assumed
positive, as the configuration default 5 is; `interval = 0` would raise
`ZeroDivisionError` in Python.) -/
def waitForSnapshotReady (interval maxWait : Nat) (polls : Nat → HttpResp) :
    WaitOutcome × Nat × Nat :=
  waitLoop interval polls 1 (maxWait / interval) .null

/-- Outcome of `_fetch_snapshot_profile`: the selected raw record (a Python
dict), or one of the `BrightDataError` raise sites of that function. -/
inductive FetchOutcome where
  | ok (profile : List (String × Json)) : FetchOutcome
  | fetchError : FetchOutcome
  | firstItemNotObject : FetchOutcome
  | unexpectedPayload : FetchOutcome
  | snapshotNotReady : FetchOutcome

/-- One body-shape test of `_fetch_snapshot_profile`: a dict body counts as
"still building" when its `status` equals `"building"` or
`str(data.get("message", "")).lower()` contains `"not ready yet"`. -/
def isBuildingBody (kvs : List (String × Json)) : Bool :=
  jsonEqStr (aget kvs "status") "building"
    || strContains (pyToLower (pyStr (agetD kvs "message" (.str "")))) "not ready yet"

/-- The profile-indicator test of `_fetch_snapshot_profile` (lines 258–262):
`data.get("account") or data.get("profile_name") or data.get("full_name")`
is truthy. -/
def hasProfileIndicator (kvs : List (String × Json)) : Bool :=
  (aget kvs "account").truthy || (aget kvs "profile_name").truthy
    || (aget kvs "full_name").truthy

/-- The retry loop of `_fetch_snapshot_profile` (brightdata.py lines
216–280).  `attempt` is the 1-based attempt index, `fuel` the attempts
remaining out of `max_attempts = 5`.  A 202 response, a "still building"
object body, and an empty or non-container JSON body all fall through to the
retry tail, which sleeps `interval` whenever attempts remain
(`if attempt < max_attempts`).  Returns outcome, request count, total sleep. -/
def fetchLoop (interval : Nat) (resps : Nat → HttpResp) :
    Nat → Nat → FetchOutcome × Nat × Nat
  | _, 0 => (.snapshotNotReady, 0, 0)
  | attempt, fuel + 1 =>
    let resp := resps attempt
    let retry :=
      let sleepNow := if 0 < fuel then interval else 0
      let rest := fetchLoop interval resps (attempt + 1) fuel
      (rest.1, rest.2.1 + 1, rest.2.2 + sleepNow)
    if resp.code = 202 then retry
    else if !isSuccessCode resp.code then (.fetchError, 1, 0)
    else
      match resp.body with
      | .arr (first :: _) =>
        match first with
        | .obj kvs => (.ok kvs, 1, 0)
        | _ => (.firstItemNotObject, 1, 0)
      | .obj kvs =>
        if isBuildingBody kvs then retry
        else if hasProfileIndicator kvs then (.ok kvs, 1, 0)
        else (.unexpectedPayload, 1, 0)
      | _ => retry

/-- `_fetch_snapshot_profile`: 5 attempts starting from attempt 1. -/
def fetchSnapshotProfile (interval : Nat) (resps : Nat → HttpResp) :
    FetchOutcome × Nat × Nat :=
  fetchLoop interval resps 1 5

/-- Result of validating one pydantic field (or a whole model): the coerced
value, or a pydantic `ValidationError`. -/
inductive PydResult (α : Type) where
  | ok (a : α) : PydResult α
  | invalid : PydResult α
deriving DecidableEq

/-- Sequencing of pydantic field validations: the model validates only when
every field does. -/
def PydResult.bind {α β : Type} : PydResult α → (α → PydResult β) → PydResult β
  | .ok a, f => f a
  | .invalid, _ => .invalid

/-- Strip leading and trailing whitespace, as the `str.strip` pydantic applies
before parsing a numeric string. -/
def trimWS (cs : List Char) : List Char :=
  ((cs.dropWhile Char.isWhitespace).reverse.dropWhile Char.isWhitespace).reverse

/-- Split a character list on `'.'` (used to recognise `"42.0"`-style
strings). -/
def splitDot : List Char → List (List Char)
  | [] => [[]]
  | c :: rest =>
    if c = '.' then [] :: splitDot rest
    else
      match splitDot rest with
      | p :: ps => (c :: p) :: ps
      | [] => [[c]]

/-- Accumulating tail of `digitsU`: digits, with single underscores allowed
between digits. -/
def digitsUCore (acc : Nat) : List Char → Option Nat
  | [] => some acc
  | c :: rest =>
    if c.isDigit then digitsUCore (acc * 10 + (c.toNat - 48)) rest
    else if c = '_' then
      match rest with
      | c2 :: rest2 =>
        if c2.isDigit then digitsUCore (acc * 10 + (c2.toNat - 48)) rest2
        else none
      | [] => none
    else none

/-- A non-empty digit run, with single underscores allowed between digits
(pydantic accepts `"4_2"`), evaluated to its value. -/
def digitsU : List Char → Option Nat
  | [] => none
  | c :: rest =>
    if c.isDigit then digitsUCore (c.toNat - 48) rest else none

/-- All characters are `'0'` and there is at least one (the fractional part
pydantic accepts after the dot: `"42.0"`, `"42.00"` parse, `"42."` does
not). -/
def allZeros (cs : List Char) : Bool :=
  !cs.isEmpty && cs.all (· = '0')

/-- pydantic v2 lax parsing of a string into an int: optional surrounding
whitespace and sign, digits (underscore separators allowed), and an optional
fraction that must consist of zeros.  `"42"`, `"42.0"`, `" +4_2 "` parse;
`""`, `"abc"`, `"42."`, `"42.5"`, `"1e2"` do not. -/
def pyStrToInt (s : String) : Option Int :=
  let cs := trimWS s.toList
  let signed : Bool × List Char :=
    match cs with
    | '-' :: rest => (true, rest)
    | '+' :: rest => (false, rest)
    | _ => (false, cs)
  let mag : Option Nat :=
    match splitDot signed.2 with
    | [w] => digitsU w
    | [w, f] => if allZeros f then digitsU w else none
    | _ => none
  mag.map (fun n => if signed.1 then -(n : Int) else (n : Int))

/-- pydantic v2 lax validation of an `Optional[int]` field (`followers`,
`following`, `posts_count`): `None` passes through, ints pass through, bools
coerce to 0/1, floats must be integral, strings are parsed by `pyStrToInt`;
anything else (and any parse failure) raises `ValidationError`. -/
def coerceOptInt : Json → PydResult (Option Int)
  | .null => .ok none
  | .bool b => .ok (some (if b then 1 else 0))
  | .int n => .ok (some n)
  | .float q => if q.den = 1 then .ok (some q.num) else .invalid
  | .str s =>
    match pyStrToInt s with
    | some n => .ok (some n)
    | none => .invalid
  | _ => .invalid

/-- pydantic v2 lax validation of an `Optional[bool]` field (`is_verified`,
`is_business`): `None` passes through, bools pass through, the numbers 0 and
1 coerce, and the case-insensitive tokens `"1"/"on"/"t"/"true"/"y"/"yes"`
(resp. `"0"/"off"/"f"/"false"/"n"/"no"`) coerce; anything else raises
`ValidationError`. -/
def coerceOptBool : Json → PydResult (Option Bool)
  | .null => .ok none
  | .bool b => .ok (some b)
  | .int n =>
    if n = 0 then .ok (some false)
    else if n = 1 then .ok (some true)
    else .invalid
  | .float q =>
    if q = 0 then .ok (some false)
    else if q = 1 then .ok (some true)
    else .invalid
  | .str s =>
    let l := pyToLower s
    if ["1", "on", "t", "true", "y", "yes"].contains l then .ok (some true)
    else if ["0", "off", "f", "false", "n", "no"].contains l then .ok (some false)
    else .invalid
  | _ => .invalid

/-- pydantic v2 validation of an `Optional[str]` field (`full_name`, `bio`):
only `None` and strings are accepted (v2 does not stringify numbers). -/
def coerceOptStr : Json → PydResult (Option String)
  | .null => .ok none
  | .str s => .ok (some s)
  | _ => .invalid

/-- pydantic v2 validation of the required `str` field `username`. -/
def coerceStr : Json → PydResult String
  | .str s => .ok s
  | _ => .invalid

/-- Abridged form of pydantic's `HttpUrl` grammar: an http(s) scheme followed
by a non-empty remainder.  (pydantic also validates and normalises the host
part; no verified input carries a profile URL, so only the scheme check is
modelled.) -/
def isHttpUrlLike (s : String) : Bool :=
  (s.startsWith "http://" && decide (7 < s.length))
    || (s.startsWith "https://" && decide (8 < s.length))

/-- pydantic v2 validation of the `Optional[HttpUrl]` field `profile_url`. -/
def coerceOptUrl : Json → PydResult (Option String)
  | .null => .ok none
  | .str s => if isHttpUrlLike s then .ok (some s) else .invalid
  | _ => .invalid

/-- The canonical profile model (`app/models/instagram.py`, InstagramProfile):
typed projections of the selected raw record, plus the record itself. -/
structure InstagramProfile where
  username : String
  full_name : Option String
  bio : Option String
  followers : Option Int
  following : Option Int
  posts_count : Option Int
  is_verified : Option Bool
  is_business : Option Bool
  profile_url : Option String
  raw : List (String × Json)

/-- The `InstagramProfile(...)` construction of `fetch_instagram_profile`
(brightdata.py lines 50–65): each keyword argument is computed with
`dict.get` and Python `or` exactly as in the source, then validated by the
pydantic field types.  The model is valid exactly when every field
validates. -/
def buildProfile (username : String) (raw : List (String × Json)) :
    PydResult InstagramProfile :=
  (coerceStr (pyOr (aget raw "account") (.str username))).bind fun u =>
  (coerceOptStr (pyOr (aget raw "profile_name") (aget raw "full_name"))).bind fun fn =>
  (coerceOptStr (aget raw "biography")).bind fun bio =>
  (coerceOptInt (aget raw "followers")).bind fun fo =>
  (coerceOptInt (aget raw "following")).bind fun fg =>
  (coerceOptInt (aget raw "posts_count")).bind fun pc =>
  (coerceOptBool (agetD raw "is_verified" (.bool false))).bind fun iv =>
  (coerceOptBool (pyOr (aget raw "is_business_account")
      (pyOr (aget raw "is_professional_account") (.bool false)))).bind fun ib =>
  (coerceOptUrl (pyOr (aget raw "profile_url") (aget raw "url"))).bind fun pu =>
  .ok ⟨u, fn, bio, fo, fg, pc, iv, ib, pu, raw⟩

/-- The configuration consumed by `fetch_instagram_profile`
(`app/core/config.py`): the two `str | None` credentials and the two numeric
poll parameters. -/
structure Settings where
  brightdata_api_token : Option String
  brightdata_instagram_dataset_id : Option String
  brightdata_poll_interval : Nat
  brightdata_max_wait_time : Nat

/-- Python falsiness of a `str | None` configuration value: `None` and `""`
are falsy. -/
def optStrFalsy : Option String → Bool
  | none => true
  | some s => decide (s = "")

/-- The provider's behaviour for one lookup: the trigger response, and the
progress/snapshot responses for each 1-based attempt number. -/
structure Env where
  trigger : HttpResp
  progress : Nat → HttpResp
  snapshot : Nat → HttpResp

/-- `fetch_instagram_profile` (brightdata.py lines 18–68): the configuration
gate, then trigger → wait → fetch → `InstagramProfile(...)`, returning the
result together with the total number of HTTP requests made.  Each
`BrightDataError` raise site and the pydantic `ValidationError` map to their
`BDErr` variant. -/
def fetchInstagramProfile (st : Settings) (username : String) (env : Env) :
    Except BDErr InstagramProfile × Nat :=
  if optStrFalsy st.brightdata_api_token
      || optStrFalsy st.brightdata_instagram_dataset_id then
    (.error .notConfigured, 0)
  else
    match triggerSnapshot env.trigger with
    | .error e => (.error e, 1)
    | .ok _ =>
      let w := waitForSnapshotReady st.brightdata_poll_interval
        st.brightdata_max_wait_time env.progress
      match w.1 with
      | .httpError => (.error .progressHttpError, 1 + w.2.1)
      | .jobFailed => (.error .jobFailed, 1 + w.2.1)
      | .timeout last => (.error (.timeout last), 1 + w.2.1)
      | .ready =>
        let f := fetchSnapshotProfile st.brightdata_poll_interval env.snapshot
        match f.1 with
        | .fetchError => (.error .fetchHttpError, 1 + w.2.1 + f.2.1)
        | .firstItemNotObject => (.error .firstItemNotObject, 1 + w.2.1 + f.2.1)
        | .unexpectedPayload => (.error .unexpectedPayload, 1 + w.2.1 + f.2.1)
        | .snapshotNotReady => (.error .snapshotNotReady, 1 + w.2.1 + f.2.1)
        | .ok kvs =>
          match buildProfile username kvs with
          | .ok p => (.ok p, 1 + w.2.1 + f.2.1)
          | .invalid => (.error .validationError, 1 + w.2.1 + f.2.1)

/-- The terminal decision `_wait_for_snapshot_ready` takes on one poll
response: `some` of the outcome when the attempt ends the loop, `none` when
the status is non-terminal and polling continues. -/
def pollOutcome (r : HttpResp) : Option WaitOutcome :=
  if isSuccessCode r.code then
    if statusIn (statusOf r.body) ["ready", "completed", "done"] then some .ready
    else if statusIn (statusOf r.body) ["failed", "error"] then some .jobFailed
    else none
  else some .httpError

/-- The terminal decision `_fetch_snapshot_profile` takes on one snapshot
response: `some` of the outcome when the attempt ends the loop, `none` when
the attempt falls through to the sleep-and-retry tail (202, a "still
building" object, or an empty/invalid JSON structure). -/
def stepOutcome (r : HttpResp) : Option FetchOutcome :=
  if r.code = 202 then none
  else if !isSuccessCode r.code then some .fetchError
  else
    match r.body with
    | .arr (first :: _) =>
      some (match first with
        | .obj kvs => .ok kvs
        | _ => .firstItemNotObject)
    | .obj kvs =>
      if isBuildingBody kvs then none
      else some (if hasProfileIndicator kvs then .ok kvs else .unexpectedPayload)
    | _ => none

/-- The "result not materialized yet" cases named by the spec: an HTTP 202,
or a 2xx object body in the building state. -/
def respStillBuilding (r : HttpResp) : Bool :=
  decide (r.code = 202) ||
    (isSuccessCode r.code &&
      match r.body with
      | .obj kvs => isBuildingBody kvs
      | _ => false)

/-- Progress responses that first report `building`, then `ready`. -/
def pollsBuildingThenReady (k : Nat) : HttpResp :=
  if k = 1 then ⟨200, .obj [("status", .str "building")]⟩
  else ⟨200, .obj [("status", .str "ready")]⟩

/-- Progress responses that always report a non-terminal status. -/
def pollsAlwaysPending : Nat → HttpResp :=
  fun _ => ⟨200, .obj [("status", .str "running")]⟩

/-- Snapshot responses that always answer 202 Accepted. -/
def snapshotAlways202 : Nat → HttpResp :=
  fun _ => ⟨202, .null⟩

/-- A snapshot result whose rows are `bob` first and `alice` second. -/
def snapshotRowsBobAlice : Nat → HttpResp :=
  fun _ => ⟨200, .arr [.obj [("account", .str "bob")],
    .obj [("account", .str "alice")]]⟩

/-- A snapshot result with a single `alice` row. -/
def snapshotRowAlice : Nat → HttpResp :=
  fun _ => ⟨200, .arr [.obj [("account", .str "alice")]]⟩

/-- A configuration whose API token is absent. -/
def settingsMissingToken : Settings :=
  ⟨none, some "ds123", 5, 300⟩

/-- A benign environment (never reached when the configuration gate fires). -/
def envBenign : Env :=
  ⟨⟨200, .obj [("snapshot_id", .str "sd")]⟩,
    fun _ => ⟨200, .obj [("status", .str "ready")]⟩,
    fun _ => ⟨200, .arr [.obj [("account", .str "alice")]]⟩⟩

/-- A raw record exercising the string-alias lookups. -/
def recAliases : List (String × Json) :=
  [("account", .str "u"), ("profile_name", .str "PN"),
    ("full_name", .str "FN"), ("biography", .str "B")]

/-- One unfolding of the polling loop, phrased through `pollOutcome`. -/
theorem waitLoop_step (interval : Nat) (polls : Nat → HttpResp) (attempt fuel : Nat) (last : Json) :
    waitLoop interval polls attempt (fuel + 1) last =
      match pollOutcome (polls attempt) with
      | some o => (o, 1, if 1 < attempt then interval else 0)
      | none =>
        let rest := waitLoop interval polls (attempt + 1) fuel (statusOf (polls attempt).body)
        (rest.1, rest.2.1 + 1, rest.2.2 + if 1 < attempt then interval else 0) := by
  simp only [waitLoop, pollOutcome]
  by_cases h1 : isSuccessCode (polls attempt).code
  · simp only [h1, if_true]
    by_cases h2 : statusIn (statusOf (polls attempt).body) ["ready", "completed", "done"]
    · simp [h2]
    · simp only [h2, if_false, Bool.false_eq_true]
      by_cases h3 : statusIn (statusOf (polls attempt).body) ["failed", "error"]
      · simp [h3]
      · simp [h3]
  · simp [h1]

/-- One unfolding of the fetch-retry loop, phrased through `stepOutcome`. -/
theorem fetchLoop_step (interval : Nat) (resps : Nat → HttpResp) (attempt fuel : Nat) :
    fetchLoop interval resps attempt (fuel + 1) =
      match stepOutcome (resps attempt) with
      | some o => (o, 1, 0)
      | none =>
        let rest := fetchLoop interval resps (attempt + 1) fuel
        (rest.1, rest.2.1 + 1, rest.2.2 + if 0 < fuel then interval else 0) := by
  simp only [fetchLoop, stepOutcome]
  by_cases h1 : (resps attempt).code = 202
  · simp [h1]
  · simp only [h1, if_false]
    by_cases h2 : isSuccessCode (resps attempt).code
    · simp only [h2, Bool.not_true, if_false]
      cases hb : (resps attempt).body with
      | arr xs =>
        cases xs with
        | nil => simp [hb, h2]
        | cons first rest => cases first <;> simp [hb, h2]
      | obj kvs =>
        by_cases h3 : isBuildingBody kvs
        · simp [hb, h3, h2]
        · by_cases h4 : hasProfileIndicator kvs
          · simp [hb, h3, h4, h2]
          · simp [hb, h3, h4, h2]
      | null => simp [hb, h2]
      | bool b => simp [hb, h2]
      | int n => simp [hb, h2]
      | float q => simp [hb, h2]
      | str s => simp [hb, h2]
    · simp [h2]

/-- From attempt `a ≥ 2` on (the regime in which every attempt is preceded by
a sleep), the polling loop ends at the first terminal attempt `k` with
`k + 1 - a` requests and as many sleeps. -/
theorem waitLoop_terminal (interval : Nat) (polls : Nat → HttpResp) :
    ∀ (fuel a k : Nat) (last : Json) (o : WaitOutcome), 2 ≤ a → a ≤ k → k < a + fuel →
      (∀ i, a ≤ i → i < k → pollOutcome (polls i) = none) →
      pollOutcome (polls k) = some o →
      waitLoop interval polls a fuel last = (o, k + 1 - a, (k + 1 - a) * interval) := by
  intro fuel
  induction fuel with
  | zero => intro a k last o _ hak hka _ _; omega
  | succ f ih =>
    intro a k last o ha2 hak hka hpend ho
    rw [waitLoop_step]
    by_cases heq : a = k
    · subst heq
      rw [ho]
      have h1 : a + 1 - a = 1 := by omega
      rw [h1, one_mul, if_pos (show 1 < a by omega)]
    · have halt : a < k := by omega
      rw [hpend a (le_refl a) halt]
      have hrest := ih (a + 1) k (statusOf (polls a).body) o (by omega) (by omega) (by omega)
        (fun i h1 h2 => hpend i (by omega) h2) ho
      simp only [hrest]
      have h1 : k + 1 - a = (k + 1 - (a + 1)) + 1 := by omega
      rw [h1, Nat.succ_mul]
      simp [if_pos (show 1 < a by omega)]

/-- From attempt `a ≥ 2` on, a run of `fuel ≥ 1` non-terminal polls exhausts
the budget: timeout carrying the status of the last poll, `fuel` requests and
`fuel` sleeps. -/
theorem waitLoop_all_pending (interval : Nat) (polls : Nat → HttpResp) :
    ∀ (fuel a : Nat) (last : Json), 2 ≤ a → 1 ≤ fuel →
      (∀ i, a ≤ i → i < a + fuel → pollOutcome (polls i) = none) →
      waitLoop interval polls a fuel last =
        (.timeout (statusOf (polls (a + fuel - 1)).body), fuel, fuel * interval) := by
  intro fuel
  induction fuel with
  | zero => intro a last _ h _; omega
  | succ f ih =>
    intro a last ha2 _ hpend
    rw [waitLoop_step]
    rw [hpend a (le_refl a) (by omega)]
    by_cases hf : f = 0
    · subst hf
      simp only [waitLoop]
      simp [if_pos (show 1 < a by omega)]
    · have hrest := ih (a + 1) (statusOf (polls a).body) (by omega) (by omega)
        (fun i h1 h2 => hpend i (by omega) (by omega))
      simp only [hrest]
      have h1 : a + 1 + f - 1 = a + (f + 1) - 1 := by omega
      rw [h1, Nat.succ_mul]
      simp [if_pos (show 1 < a by omega)]

/-- The polling loop started at attempt 1 (no sleep before the first poll):
termination at attempt `k` costs `k` requests and `k - 1` sleeps. -/
theorem waitLoop_from_start (interval : Nat) (polls : Nat → HttpResp) (k fuel : Nat)
    (o : WaitOutcome) (hk1 : 1 ≤ k) (hkf : k ≤ fuel)
    (hpend : ∀ i, 1 ≤ i → i < k → pollOutcome (polls i) = none)
    (ho : pollOutcome (polls k) = some o) :
    waitLoop interval polls 1 fuel .null = (o, k, (k - 1) * interval) := by
  obtain ⟨f, rfl⟩ : ∃ f, fuel = f + 1 := ⟨fuel - 1, by omega⟩
  rw [waitLoop_step]
  by_cases heq : k = 1
  · subst heq
    rw [ho]
    simp
  · rw [hpend 1 (le_refl 1) (by omega)]
    have hrest := waitLoop_terminal interval polls f 2 k (statusOf (polls 1).body) o
      (le_refl 2) (by omega) (by omega) (fun i h1 h2 => hpend i (by omega) h2) ho
    simp only [hrest]
    have h1 : k + 1 - 2 = k - 1 := by omega
    have h2 : k - 1 + 1 = k := by omega
    simp [h1, h2]

/-- The polling loop started at attempt 1 with every attempt non-terminal:
timeout with the last attempt's status, `fuel` requests, `fuel - 1` sleeps. -/
theorem waitLoop_start_all_pending (interval : Nat) (polls : Nat → HttpResp) (fuel : Nat)
    (hf : 1 ≤ fuel)
    (hpend : ∀ i, 1 ≤ i → i ≤ fuel → pollOutcome (polls i) = none) :
    waitLoop interval polls 1 fuel .null =
      (.timeout (statusOf (polls fuel).body), fuel, (fuel - 1) * interval) := by
  obtain ⟨f, rfl⟩ : ∃ f, fuel = f + 1 := ⟨fuel - 1, by omega⟩
  rw [waitLoop_step]
  rw [hpend 1 (le_refl 1) (by omega)]
  by_cases hf0 : f = 0
  · subst hf0
    simp only [waitLoop]
    simp
  · have hrest := waitLoop_all_pending interval polls f 2 (statusOf (polls 1).body)
      (le_refl 2) (by omega) (fun i h1 h2 => hpend i (by omega) (by omega))
    simp only [hrest]
    have h1 : 2 + f - 1 = f + 1 := by omega
    have h2 : (f + 1) - 1 = f := by omega
    simp [h1, h2]

/-- The fetch-retry loop ends at the first terminal attempt `k`, having slept
after every earlier attempt but not after the terminal one. -/
theorem fetchLoop_terminal (interval : Nat) (resps : Nat → HttpResp) :
    ∀ (fuel a k : Nat) (o : FetchOutcome), a ≤ k → k < a + fuel →
      (∀ i, a ≤ i → i < k → stepOutcome (resps i) = none) →
      stepOutcome (resps k) = some o →
      fetchLoop interval resps a fuel = (o, k + 1 - a, (k - a) * interval) := by
  intro fuel
  induction fuel with
  | zero => intro a k o hak hka _ _; omega
  | succ f ih =>
    intro a k o hak hka hpend ho
    rw [fetchLoop_step]
    by_cases heq : a = k
    · subst heq
      rw [ho]
      have h1 : a + 1 - a = 1 := by omega
      have h2 : a - a = 0 := by omega
      simp [h1, h2]
    · have halt : a < k := by omega
      rw [hpend a (le_refl a) halt]
      have hf : 0 < f := by omega
      have hrest := ih (a + 1) k o (by omega) (by omega)
        (fun i h1 h2 => hpend i (by omega) h2) ho
      simp only [hrest]
      have h1 : k + 1 - a = (k + 1 - (a + 1)) + 1 := by omega
      have h2 : k - a = (k - (a + 1)) + 1 := by omega
      rw [h1, h2, Nat.succ_mul]
      simp [if_pos hf]

/-- A fetch-retry budget of `fuel ≥ 1` attempts, all non-terminal, is
exhausted: `SnapshotNotReady`, `fuel` requests, sleeps after all but the last
attempt. -/
theorem fetchLoop_exhaust (interval : Nat) (resps : Nat → HttpResp) :
    ∀ (fuel a : Nat), 1 ≤ fuel →
      (∀ i, a ≤ i → i < a + fuel → stepOutcome (resps i) = none) →
      fetchLoop interval resps a fuel = (.snapshotNotReady, fuel, (fuel - 1) * interval) := by
  intro fuel
  induction fuel with
  | zero => intro a h _; omega
  | succ f ih =>
    intro a _ hpend
    rw [fetchLoop_step]
    rw [hpend a (le_refl a) (by omega)]
    by_cases hf : f = 0
    · subst hf
      simp [fetchLoop]
    · have hrest := ih (a + 1) (by omega) (fun i h1 h2 => hpend i (by omega) (by omega))
      simp only [hrest]
      have h1 : f + 1 - 1 = (f - 1) + 1 := by omega
      rw [h1, Nat.succ_mul]
      simp [if_pos (show 0 < f by omega)]

/-- A "still building" response (202, or a 2xx building object) is exactly a
non-terminal iteration of the fetch-retry loop. -/
theorem stillBuilding_stepOutcome (r : HttpResp) (h : respStillBuilding r = true) :
    stepOutcome r = none := by
  unfold respStillBuilding at h
  rw [Bool.or_eq_true, Bool.and_eq_true, decide_eq_true_eq] at h
  unfold stepOutcome
  obtain ⟨c, b⟩ := r
  rcases h with h202 | ⟨hs, hb⟩
  · have hc : c = 202 := h202
    simp [hc]
  · by_cases h202 : c = 202
    · simp [h202]
    · cases b <;> simp_all

/-- A status in the failure set is not in the success set. -/
theorem statusIn_failed_not_ready (j : Json) :
    statusIn j ["failed", "error"] = true →
      statusIn j ["ready", "completed", "done"] = false := by
  cases j <;> simp [statusIn, jsonEqStr]
  intro h
  rcases h with h | h <;> subst h <;> decide

/-- A valid `InstagramProfile` determines the validation result of each of its
field expressions: every typed field is the coercion of the value the source
passes for it, and `raw` is the selected record itself. -/
theorem buildProfile_ok_fields (u : String) (kvs : List (String × Json))
    (p : InstagramProfile) (h : buildProfile u kvs = .ok p) :
    coerceStr (pyOr (aget kvs "account") (.str u)) = .ok p.username
    ∧ coerceOptStr (pyOr (aget kvs "profile_name") (aget kvs "full_name")) = .ok p.full_name
    ∧ coerceOptStr (aget kvs "biography") = .ok p.bio
    ∧ coerceOptInt (aget kvs "followers") = .ok p.followers
    ∧ coerceOptInt (aget kvs "following") = .ok p.following
    ∧ coerceOptInt (aget kvs "posts_count") = .ok p.posts_count
    ∧ coerceOptBool (agetD kvs "is_verified" (.bool false)) = .ok p.is_verified
    ∧ coerceOptBool (pyOr (aget kvs "is_business_account")
        (pyOr (aget kvs "is_professional_account") (.bool false))) = .ok p.is_business
    ∧ coerceOptUrl (pyOr (aget kvs "profile_url") (aget kvs "url")) = .ok p.profile_url
    ∧ p.raw = kvs := by
  unfold buildProfile at h
  cases h1 : coerceStr (pyOr (aget kvs "account") (.str u)) with
  | invalid => rw [h1] at h; exact absurd h (by simp [PydResult.bind])
  | ok u' =>
  rw [h1] at h; simp only [PydResult.bind] at h
  cases h2 : coerceOptStr (pyOr (aget kvs "profile_name") (aget kvs "full_name")) with
  | invalid => rw [h2] at h; exact absurd h (by simp [PydResult.bind])
  | ok fn =>
  rw [h2] at h; simp only [PydResult.bind] at h
  cases h3 : coerceOptStr (aget kvs "biography") with
  | invalid => rw [h3] at h; exact absurd h (by simp [PydResult.bind])
  | ok bio =>
  rw [h3] at h; simp only [PydResult.bind] at h
  cases h4 : coerceOptInt (aget kvs "followers") with
  | invalid => rw [h4] at h; exact absurd h (by simp [PydResult.bind])
  | ok fo =>
  rw [h4] at h; simp only [PydResult.bind] at h
  cases h5 : coerceOptInt (aget kvs "following") with
  | invalid => rw [h5] at h; exact absurd h (by simp [PydResult.bind])
  | ok fg =>
  rw [h5] at h; simp only [PydResult.bind] at h
  cases h6 : coerceOptInt (aget kvs "posts_count") with
  | invalid => rw [h6] at h; exact absurd h (by simp [PydResult.bind])
  | ok pc =>
  rw [h6] at h; simp only [PydResult.bind] at h
  cases h7 : coerceOptBool (agetD kvs "is_verified" (.bool false)) with
  | invalid => rw [h7] at h; exact absurd h (by simp [PydResult.bind])
  | ok iv =>
  rw [h7] at h; simp only [PydResult.bind] at h
  cases h8 : coerceOptBool (pyOr (aget kvs "is_business_account")
      (pyOr (aget kvs "is_professional_account") (.bool false))) with
  | invalid => rw [h8] at h; exact absurd h (by simp [PydResult.bind])
  | ok ib =>
  rw [h8] at h; simp only [PydResult.bind] at h
  cases h9 : coerceOptUrl (pyOr (aget kvs "profile_url") (aget kvs "url")) with
  | invalid => rw [h9] at h; exact absurd h (by simp [PydResult.bind])
  | ok pu =>
  rw [h9] at h; simp only [PydResult.bind] at h
  have hinj : (⟨u', fn, bio, fo, fg, pc, iv, ib, pu, kvs⟩ : InstagramProfile) = p := by
    injection h
  subst hinj
  exact ⟨rfl, rfl, rfl, rfl, rfl, rfl, rfl, rfl, rfl, rfl⟩

/-- C1 (counterexample): the claim's five-key, two-shape extraction does not
hold of the code.  A trigger response carrying the job id under the
recognized key `snapshot` is rejected with the missing-job-id error instead
of yielding `"sd_1"`, and a one-element list response is not unwrapped (the
source calls `.get` on it, an `AttributeError`). -/
theorem trigger_extract_c1_counterexample :
    extractSnapshotId (.obj [("snapshot", .str "sd_1")]) = .error .missingJobId
    ∧ extractSnapshotId (.arr [.obj [("snapshot_id", .str "sd_1")]]) =
        .error .pyAttributeError :=
  ⟨rfl, rfl⟩

/-- C1 (amended): the trigger operation reads the job id from the single key
`snapshot_id` of an object response; a truthy value there is returned, any
other key (in particular `snapshot`, `id`, `job_id`, `snapshotId`) leaves the
id missing, and no fallback scan over string-valued fields exists; a list
response is never unwrapped. -/
theorem trigger_extract_c1 :
    (∀ (s : String), s ≠ "" → ∀ (rest : List (String × Json)),
      extractSnapshotId (.obj (("snapshot_id", .str s) :: rest)) = .ok (.str s))
    ∧ (∀ (key : String), key ≠ "snapshot_id" → ∀ (v : Json),
      extractSnapshotId (.obj [(key, v)]) = .error .missingJobId)
    ∧ (∀ (body : Json), extractSnapshotId (.arr [body]) = .error .pyAttributeError) := by
  refine ⟨?_, ?_, ?_⟩
  · intro s hs rest
    simp [extractSnapshotId, aget, agetD, Json.truthy, hs]
  · intro key hk v
    simp [extractSnapshotId, aget, agetD, hk, Json.truthy]
  · intro body
    rfl

/-- C1 (witness): the amended theorem applied to a concrete response. -/
theorem trigger_extract_c1_witness :
    extractSnapshotId (.obj [("snapshot_id", .str "sd_1")]) = .ok (.str "sd_1") :=
  trigger_extract_c1.1 "sd_1" (by decide) []

/-- C2: when polls `1..k-1` are non-terminal and `k` is within the attempt
budget `max_wait / interval`, a `ready`/`completed`/`done` status at poll `k`
returns successfully, a `failed`/`error` status raises `JobFailed`, and a
non-terminal status sustained over the whole budget raises `Timeout` with the
last status; the counts certify `k` (resp. `max_wait / interval`) requests
with one `interval` sleep before every poll except the first. -/
theorem wait_until_ready_c2 (interval maxWait k : Nat) (polls : Nat → HttpResp)
    (hk1 : 1 ≤ k) (hkA : k ≤ maxWait / interval)
    (hpend : ∀ i, 1 ≤ i → i < k → pollOutcome (polls i) = none) :
    (isSuccessCode (polls k).code = true →
      statusIn (statusOf (polls k).body) ["ready", "completed", "done"] = true →
      waitForSnapshotReady interval maxWait polls = (.ready, k, (k - 1) * interval))
    ∧ (isSuccessCode (polls k).code = true →
      statusIn (statusOf (polls k).body) ["failed", "error"] = true →
      waitForSnapshotReady interval maxWait polls = (.jobFailed, k, (k - 1) * interval))
    ∧ ((∀ i, 1 ≤ i → i ≤ maxWait / interval → pollOutcome (polls i) = none) →
      waitForSnapshotReady interval maxWait polls =
        (.timeout (statusOf (polls (maxWait / interval)).body), maxWait / interval,
          (maxWait / interval - 1) * interval)) := by
  unfold waitForSnapshotReady
  refine ⟨?_, ?_, ?_⟩
  · intro hs hr
    exact waitLoop_from_start interval polls k _ .ready hk1 hkA hpend
      (by simp [pollOutcome, hs, hr])
  · intro hs hf
    have hnr := statusIn_failed_not_ready _ hf
    exact waitLoop_from_start interval polls k _ .jobFailed hk1 hkA hpend
      (by simp [pollOutcome, hs, hf, hnr])
  · intro hall
    exact waitLoop_start_all_pending interval polls _ (by omega) hall

/-- C2 (witness): with interval 5 and budget 10 (two attempts), a `building`
poll followed by a `ready` poll returns after 2 requests and one sleep. -/
theorem wait_until_ready_c2_witness :
    waitForSnapshotReady 5 10 pollsBuildingThenReady = (.ready, 2, 5) := by
  have h := wait_until_ready_c2 5 10 2 pollsBuildingThenReady (by decide) (by decide)
    (fun i h1 h2 => by
      have hi : i = 1 := by omega
      subst hi
      rfl)
  exact h.1 rfl rfl

/-- C3 (counterexample): an integer field whose raw value fails to parse does
not become null — the whole model raises a validation error, so no profile is
produced for `"abc"` or `""`. -/
theorem int_coercion_c3_counterexample :
    buildProfile "alice" [("account", .str "alice"), ("followers", .str "abc")] = .invalid
    ∧ buildProfile "alice" [("account", .str "alice"), ("followers", .str "")] = .invalid :=
  ⟨rfl, rfl⟩

/-- C3 (amended): integer fields accept numbers and numeric strings —
`"42"` and `"42.0"` coerce to 42 — but a parse failure such as `""` or
`"abc"` raises a validation error (the profile construction fails) instead of
yielding null; on a successfully built profile the `followers` field is the
coercion of the raw `followers` value. -/
theorem int_coercion_c3 :
    (∀ (u : String) (kvs : List (String × Json)) (p : InstagramProfile),
      buildProfile u kvs = .ok p →
      coerceOptInt (aget kvs "followers") = .ok p.followers)
    ∧ coerceOptInt (.str "42") = .ok (some 42)
    ∧ coerceOptInt (.str "42.0") = .ok (some 42)
    ∧ coerceOptInt (.str "") = .invalid
    ∧ coerceOptInt (.str "abc") = .invalid := by
  refine ⟨?_, by decide, by decide, by decide, by decide⟩
  intro u kvs p h
  exact (buildProfile_ok_fields u kvs p h).2.2.2.1

/-- C3 (witness): the amended theorem applied to a concrete record. -/
theorem int_coercion_c3_witness :
    coerceOptInt (aget [("account", .str "alice"), ("followers", .str "42")] "followers") =
      .ok (some 42) :=
  int_coercion_c3.1 "alice" [("account", .str "alice"), ("followers", .str "42")]
    ⟨"alice", none, none, some 42, none, none, some false, some false, none,
      [("account", .str "alice"), ("followers", .str "42")]⟩ rfl

/-- C4 (counterexample): a present null `is_verified` passes through as null
(not false), and an unrecognized token such as `"banana"` raises a validation
error instead of mapping to false. -/
theorem bool_coercion_c4_counterexample :
    buildProfile "u" [("account", .str "u"), ("is_verified", .null)] =
      .ok ⟨"u", none, none, none, none, none, none, some false, none,
        [("account", .str "u"), ("is_verified", .null)]⟩
    ∧ buildProfile "u" [("account", .str "u"), ("is_verified", .str "banana")] = .invalid :=
  ⟨rfl, rfl⟩

/-- C4 (amended): boolean fields accept native booleans, the numbers 0/1 and
the case-insensitive tokens `"true"`, `"1"`, `"yes"` (to true) and `"no"`
(to false); an absent value defaults to false through the `dict.get` default,
but a present null stays null and an unrecognized value raises a validation
error rather than mapping to false; on a successfully built profile the
`is_verified` field is the coercion of the raw value with default `False`. -/
theorem bool_coercion_c4 :
    (∀ (u : String) (kvs : List (String × Json)) (p : InstagramProfile),
      buildProfile u kvs = .ok p →
      coerceOptBool (agetD kvs "is_verified" (.bool false)) = .ok p.is_verified)
    ∧ coerceOptBool (.bool true) = .ok (some true)
    ∧ coerceOptBool (.str "true") = .ok (some true)
    ∧ coerceOptBool (.str "YES") = .ok (some true)
    ∧ coerceOptBool (.int 0) = .ok (some false)
    ∧ coerceOptBool (.str "no") = .ok (some false)
    ∧ coerceOptBool .null = .ok none
    ∧ coerceOptBool (.str "banana") = .invalid
    ∧ buildProfile "u" [("account", .str "u")] =
        .ok ⟨"u", none, none, none, none, none, some false, some false, none,
          [("account", .str "u")]⟩ := by
  refine ⟨?_, by decide, by decide, by decide, by decide, by decide, by decide, by decide, rfl⟩
  intro u kvs p h
  exact (buildProfile_ok_fields u kvs p h).2.2.2.2.2.2.1

/-- C4 (witness): the amended theorem applied to a concrete record. -/
theorem bool_coercion_c4_witness :
    coerceOptBool (agetD [("account", .str "u"), ("is_verified", .str "YES")]
      "is_verified" (.bool false)) = .ok (some true) :=
  bool_coercion_c4.1 "u" [("account", .str "u"), ("is_verified", .str "YES")]
    ⟨"u", none, none, none, none, none, some true, some false, none,
      [("account", .str "u"), ("is_verified", .str "YES")]⟩ rfl

/-- C5 (counterexample): result-row selection ignores the requested username.
For a snapshot whose rows are `bob` then `alice`, the fetch returns the `bob`
row — even though the lookup that produced it was for `"ALICE"` — and that
row differs from the `alice` row the claim promises. -/
theorem row_selection_c5_counterexample :
    fetchSnapshotProfile 5 snapshotRowsBobAlice =
      (.ok [("account", .str "bob")], 1, 0)
    ∧ [("account", Json.str "bob")] ≠ [("account", Json.str "alice")] := by
  constructor
  · rfl
  · intro hcontra
    injection hcontra with h1 h2
    injection h1 with hk hv
    injection hv with hs
    exact absurd hs (by decide)

/-- C5 (amended): the fetch step performs no username matching and no CSV
handling at all: whatever the requested username, an array result yields its
first row unconditionally on the first attempt. -/
theorem row_selection_c5 (interval : Nat) (rowKvs : List (String × Json))
    (rest : List Json) (resps : Nat → HttpResp)
    (h1 : resps 1 = ⟨200, .arr (.obj rowKvs :: rest)⟩) :
    fetchSnapshotProfile interval resps = (.ok rowKvs, 1, 0) := by
  unfold fetchSnapshotProfile
  have ho : stepOutcome (resps 1) = some (.ok rowKvs) := by
    rw [h1]; rfl
  have h := fetchLoop_terminal interval resps 5 1 1 (.ok rowKvs) (le_refl 1) (by omega)
    (fun i hi1 hi2 => by omega) ho
  simpa using h

/-- C5 (witness): the amended theorem applied to a concrete snapshot. -/
theorem row_selection_c5_witness :
    fetchSnapshotProfile 5 snapshotRowAlice = (.ok [("account", .str "alice")], 1, 0) :=
  row_selection_c5 5 [("account", .str "alice")] [] snapshotRowAlice rfl

/-- C6 (counterexample): a record carrying the full name only under `name`
and the bio only under `bio` produces a profile with both fields null: the
source consults neither the `name` alias nor the `bio` alias. -/
theorem string_aliases_c6_counterexample :
    buildProfile "u" [("account", .str "u"), ("name", .str "Alice Example"),
      ("bio", .str "hello")] =
      .ok ⟨"u", none, none, none, none, none, some false, some false, none,
        [("account", .str "u"), ("name", .str "Alice Example"),
          ("bio", .str "hello")]⟩ :=
  rfl

/-- C6 (amended): the full name is looked up as `profile_name` then
`full_name` (first truthy wins; there is no `name` alias), and the bio only
as `biography` (the `bio` key is ignored); on a successfully built profile
both fields are the coercion of exactly these lookups. -/
theorem string_aliases_c6 :
    (∀ (u : String) (kvs : List (String × Json)) (p : InstagramProfile),
      buildProfile u kvs = .ok p →
      coerceOptStr (pyOr (aget kvs "profile_name") (aget kvs "full_name")) = .ok p.full_name
      ∧ coerceOptStr (aget kvs "biography") = .ok p.bio)
    ∧ buildProfile "u" recAliases =
        .ok ⟨"u", some "PN", some "B", none, none, none, some false, some false, none,
          recAliases⟩
    ∧ buildProfile "u" [("account", .str "u"), ("full_name", .str "FN")] =
        .ok ⟨"u", some "FN", none, none, none, none, some false, some false, none,
          [("account", .str "u"), ("full_name", .str "FN")]⟩ := by
  refine ⟨?_, rfl, rfl⟩
  intro u kvs p h
  exact ⟨(buildProfile_ok_fields u kvs p h).2.1, (buildProfile_ok_fields u kvs p h).2.2.1⟩

/-- C6 (witness): the amended theorem applied to a concrete record. -/
theorem string_aliases_c6_witness :
    coerceOptStr (pyOr (aget recAliases "profile_name") (aget recAliases "full_name")) =
      .ok (some "PN")
    ∧ coerceOptStr (aget recAliases "biography") = .ok (some "B") :=
  string_aliases_c6.1 "u" recAliases
    ⟨"u", some "PN", some "B", none, none, none, some false, some false, none, recAliases⟩
    rfl

/-- C7: with "still building" responses (202 or a 2xx building body) before
attempt `k ≤ 5`: a full budget of still-building responses ends in
`SnapshotNotReady` after 5 requests and 4 sleeps; an HTTP failure at attempt
`k` raises the fetch error; and a 2xx object body at attempt `k` that is
neither building nor carries any profile-indicator field raises
`UnexpectedPayload` — in each case after `k` requests and `k - 1` sleeps of
one interval. -/
theorem fetch_result_c7 (interval k : Nat) (resps : Nat → HttpResp)
    (hk1 : 1 ≤ k) (hk5 : k ≤ 5)
    (hb : ∀ i, 1 ≤ i → i < k → respStillBuilding (resps i) = true) :
    ((∀ i, 1 ≤ i → i ≤ 5 → respStillBuilding (resps i) = true) →
      fetchSnapshotProfile interval resps = (.snapshotNotReady, 5, 4 * interval))
    ∧ (isSuccessCode (resps k).code = false →
      fetchSnapshotProfile interval resps = (.fetchError, k, (k - 1) * interval))
    ∧ (∀ kvs, (resps k).code ≠ 202 → isSuccessCode (resps k).code = true →
      (resps k).body = .obj kvs → isBuildingBody kvs = false →
      hasProfileIndicator kvs = false →
      fetchSnapshotProfile interval resps = (.unexpectedPayload, k, (k - 1) * interval)) := by
  unfold fetchSnapshotProfile
  refine ⟨?_, ?_, ?_⟩
  · intro hall
    have h := fetchLoop_exhaust interval resps 5 1 (by omega)
      (fun i h1 h2 => stillBuilding_stepOutcome _ (hall i h1 (by omega)))
    simpa using h
  · intro hfail
    have h202 : (resps k).code ≠ 202 := by
      intro hc
      rw [hc] at hfail
      exact absurd hfail (by decide)
    have ho : stepOutcome (resps k) = some .fetchError := by
      unfold stepOutcome
      simp [h202, hfail]
    have h := fetchLoop_terminal interval resps 5 1 k .fetchError (by omega) (by omega)
      (fun i h1 h2 => stillBuilding_stepOutcome _ (hb i h1 h2)) ho
    simpa using h
  · intro kvs h202 hs hbody hnb hni
    have ho : stepOutcome (resps k) = some .unexpectedPayload := by
      unfold stepOutcome
      simp [h202, hs, hbody, hnb, hni]
    have h := fetchLoop_terminal interval resps 5 1 k .unexpectedPayload (by omega) (by omega)
      (fun i h1 h2 => stillBuilding_stepOutcome _ (hb i h1 h2)) ho
    simpa using h

/-- C7 (witness): five 202 responses exhaust the budget: `SnapshotNotReady`
after 5 requests and 4 sleeps of 3 units. -/
theorem fetch_result_c7_witness :
    fetchSnapshotProfile 3 snapshotAlways202 = (.snapshotNotReady, 5, 12) := by
  have h := fetch_result_c7 3 1 snapshotAlways202 (by decide) (by decide)
    (fun i h1 h2 => by omega)
  exact h.1 (fun i _ _ => rfl)

/-- C8: a falsy API token or dataset id makes `fetch_instagram_profile` fail
with the not-configured error after zero HTTP requests: no trigger, poll or
fetch is attempted. -/
theorem not_configured_c8 (st : Settings) (username : String) (env : Env)
    (h : optStrFalsy st.brightdata_api_token = true ∨
      optStrFalsy st.brightdata_instagram_dataset_id = true) :
    fetchInstagramProfile st username env = (.error .notConfigured, 0) := by
  unfold fetchInstagramProfile
  rcases h with h | h <;> simp [h]

/-- C8 (witness): a missing token fails before any request even in an
environment that would answer every request successfully. -/
theorem not_configured_c8_witness :
    fetchInstagramProfile settingsMissingToken "alice" envBenign =
      (.error .notConfigured, 0) :=
  not_configured_c8 settingsMissingToken "alice" envBenign (Or.inl rfl)

/-- C9: a trigger response whose `snapshot_id` is falsy (e.g. the empty
string) fails with the missing-job-id error, and behaves exactly as a
response without the key: the falsy id is never returned. -/
theorem empty_snapshot_id_c9 (v : Json) (kvs : List (String × Json))
    (hv : v.truthy = false)
    (habs : (aget kvs "snapshot_id").truthy = false) :
    extractSnapshotId (.obj (("snapshot_id", v) :: kvs)) = .error .missingJobId
    ∧ extractSnapshotId (.obj (("snapshot_id", v) :: kvs)) =
        extractSnapshotId (.obj kvs) := by
  constructor
  · simp [extractSnapshotId, aget, agetD, hv]
  · have habs2 : (agetD kvs "snapshot_id" Json.null).truthy = false := habs
    simp [extractSnapshotId, aget, agetD, hv, habs2]

/-- C9 (witness): `snapshot_id` mapped to `""` fails like the response
without it. -/
theorem empty_snapshot_id_c9_witness :
    extractSnapshotId (.obj [("snapshot_id", .str ""), ("endpoint", .str "e")]) =
      .error .missingJobId
    ∧ extractSnapshotId (.obj [("snapshot_id", .str ""), ("endpoint", .str "e")]) =
        extractSnapshotId (.obj [("endpoint", .str "e")]) :=
  empty_snapshot_id_c9 (.str "") [("endpoint", .str "e")] rfl rfl

/-- C10: when the poll interval exceeds the wait budget, the attempt count
`max_wait // interval` is zero: the wait loop makes no status request and
fails immediately with `Timeout` reporting `None` as the last status. -/
theorem wait_zero_attempts_c10 (interval maxWait : Nat) (polls : Nat → HttpResp)
    (h : maxWait < interval) :
    waitForSnapshotReady interval maxWait polls = (.timeout .null, 0, 0) := by
  unfold waitForSnapshotReady
  rw [Nat.div_eq_of_lt h]
  rfl

/-- C10 (witness): interval 7 against a budget of 5 times out immediately,
with zero requests, whatever the provider would have answered. -/
theorem wait_zero_attempts_c10_witness :
    waitForSnapshotReady 7 5 pollsAlwaysPending = (.timeout .null, 0, 0) :=
  wait_zero_attempts_c10 7 5 pollsAlwaysPending (by decide)

end Wykra
